import Mathlib

/-!
Verification development for the RegionIQ data API observation query engine
(`services/data-api/app/routes/observations.py` together with the pydantic
models in `app/models.py` and the static tables in `app/catalogue.py`).

The embedding below translates the query grammar, the cost estimator, the
region-code normalisation, the chunked/paginated fetch loop and the
response-assembly logic into executable Lean definitions.  The remote
tabular store is modelled as an arbitrary function from fetch parameters to
a list of rows; the while-loop over pages is given explicit fuel (the
Python loop terminates because every iteration either breaks or strictly
grows the bounded record list, so every statement proved here is
quantified over all fuel values or evaluated at a sufficiently large one).
Floating point payloads are never computed with (only moved between
fields), so row values are modelled as rational numbers.
-/

namespace RegionIQ

/-- Dimension selection, the tagged union `item | all | range` of
`app/models.py` (`SelectionItem`, `SelectionAll`, `SelectionRange`). -/
inductive Selection where
  | item (values : List String)
  | all
  | range (fromv tov : String)
deriving DecidableEq

/-- One entry of the query list: a dimension code with its selection
(`app/models.py`, `QueryDim`).  Dimension codes are modelled as strings. -/
structure QueryDim where
  code : String
  selection : Selection
deriving DecidableEq

/-- Query request body (`app/models.py`, `QueryRequest`): the dimension
list plus `limit` (default 50000) and optional `cursor`.  The `response`
format field is never read by the engine and is omitted. -/
structure QueryRequest where
  query : List QueryDim
  limit : Int := 50000
  cursor : Option Int := none
deriving DecidableEq

/-- Python `s.startswith(pre)`, computed on the character list so that the
kernel can evaluate it. -/
def pyStartsWith (s pre : String) : Bool :=
  pre.data.isPrefixOf s.data

/-- Python `len(s)`, computed on the character list. -/
def strLen (s : String) : Nat :=
  s.data.length

/-- Python `str.isdigit` restricted to ASCII: nonempty and all digits. -/
def pyIsDigit (s : String) : Bool :=
  !s.data.isEmpty && s.data.all Char.isDigit

/-- Python `int(s)` on a digit-checked string (decimal value). -/
def pyInt (s : String) : Nat :=
  s.data.foldl (fun n c => n * 10 + (c.toNat - 48)) 0

/-- Body of `_extract_values`: walk the dimension list and return at the
first entry whose code matches — `some values` for an item selection,
`none` for an `all` selection, `some [from, to]` for a range, and
`some []` when no entry matches (Python returns `[]`). -/
def extractFrom : List QueryDim → String → Option (List String)
  | [], _ => some []
  | d :: rest, code =>
    if d.code == code then
      match d.selection with
      | .item vs => some vs
      | .all => none
      | .range a b => some [a, b]
    else extractFrom rest code

/-- `_extract_values(req, code)` (observations.py lines 33–44). -/
def extractValues (req : QueryRequest) (code : String) : Option (List String) :=
  extractFrom req.query code

/-- Selection of the first query entry carrying the given dimension code,
if any (the entry `_extract_values` acts on). -/
def firstSel (req : QueryRequest) (code : String) : Option Selection :=
  (req.query.find? fun d => d.code == code).map (·.selection)

/-- `_estimate_cost(req)` (observations.py lines 47–81): the product of
per-dimension cardinalities, with unbounded (`all`) dimensions overwritten
by fixed worst-case counts, and a two-element all-digit year extraction
interpreted as an inclusive range. -/
def estimateCost (req : QueryRequest) : Nat :=
  let metrics := extractValues req "metric"
  let regions := extractValues req "region"
  let years := extractValues req "time_period"
  let scenarios := extractValues req "scenario"
  let measures := extractValues req "measure"
  let metric_count := match metrics with | none => 1 | some l => max 1 l.length
  let region_count := match regions with | none => 1 | some l => max 1 l.length
  let scenario_count := match scenarios with | none => 1 | some l => max 1 l.length
  let measure_count := match measures with | none => 1 | some l => max 1 l.length
  let year_count : Nat :=
    match years with
    | none => 200
    | some l =>
      match l with
      | [y0, y1] =>
        if pyIsDigit y0 && pyIsDigit y1 then
          max 1 (((pyInt y1 : Int) - (pyInt y0 : Int)).natAbs + 1)
        else max 1 l.length
      | _ => max 1 l.length
  -- unbounded dims are treated as very large (source lines 70–79)
  let metric_count := if metrics = none then 5000 else metric_count
  let region_count := if regions = none then 50000 else region_count
  let scenario_count := if scenarios = none then 1 else scenario_count
  let measure_count := if measures = none then 1 else measure_count
  let year_count := if years = none then 200 else year_count
  max 1 (metric_count * region_count * year_count * scenario_count * measure_count)

/-- Hard cost ceiling `max_cost` of the route (observations.py line 114). -/
def MAX_COST : Nat := 250000

/-- `_choose_measure_for_scenario` (observations.py lines 91–98). -/
def chooseMeasureForScenario (scenario : String) (explicit_measure : Option String) : String :=
  if explicit_measure == some "value" || explicit_measure == some "ci_lower"
      || explicit_measure == some "ci_upper" then
    explicit_measure.getD "value"
  else if scenario == "upside" then "ci_upper"
  else if scenario == "downside" then "ci_lower"
  else "value"

/-- Store row as consumed by the route: the columns `_pick_value` and the
record assembly read.  Numeric columns are nullable rationals, string
columns nullable strings (`row.get` on a missing/null key yields `None`). -/
structure Row where
  metric_id : String
  region_code : String
  period : Int
  value : Option Rat
  ci_lower : Option Rat
  ci_upper : Option Rat
  unit : Option String
  data_type : Option String
  data_quality : Option String
deriving DecidableEq

/-- Dictionary access `row.get(measure)` for the numeric measure columns
(the only keys the scenario/measure resolver can produce). -/
def rowGet (row : Row) (key : String) : Option Rat :=
  if key == "value" then row.value
  else if key == "ci_lower" then row.ci_lower
  else if key == "ci_upper" then row.ci_upper
  else none

/-- `_pick_value(row, measure)` (observations.py lines 101–107). -/
def pickValue (row : Row) (measure : String) : Option Rat :=
  if row.data_type == some "historical" then row.value
  else
    match rowGet row measure with
    | none => row.value
    | some v => some v

/-- Region code mapping `E_CODE_TO_UK` from `app/catalogue.py`: internal
statistical ITL1 codes to public `UK*` codes. -/
def E_CODE_TO_UK : List (String × String) :=
  [("E12000001", "UKC"), ("E12000002", "UKD"), ("E12000003", "UKE"),
   ("E12000004", "UKF"), ("E12000005", "UKG"), ("E12000006", "UKH"),
   ("E12000007", "UKI"), ("E12000008", "UKJ"), ("E12000009", "UKK"),
   ("S92000003", "UKM"), ("W92000004", "UKL"), ("N92000002", "UKN")]

/-- Inverse mapping `UK_TO_E_CODE` from `app/catalogue.py`. -/
def UK_TO_E_CODE : List (String × String) :=
  E_CODE_TO_UK.map fun p => (p.2, p.1)

/-- Dictionary lookup over an association list of strings. -/
def lookupStr (m : List (String × String)) (k : String) : Option String :=
  (m.find? fun p => p.1 == k).map (·.2)

/-- Inner helper `to_db_code` of the route (observations.py lines 165–169):
translate UI ITL1 codes `UK?` to internal DB codes, pass others through. -/
def to_db_code (code : String) : String :=
  if pyStartsWith code "UK" && strLen code == 3 && (lookupStr UK_TO_E_CODE code).isSome then
    (lookupStr UK_TO_E_CODE code).getD code
  else code

/-- Inner helper `infer_level` of the route (observations.py lines 171–176):
structural classification of an internal region code into its level. -/
def inferLevel (db_code : String) : String :=
  if pyStartsWith db_code "E120" || pyStartsWith db_code "S920"
      || pyStartsWith db_code "W920" || pyStartsWith db_code "N920" then "ITL1"
  else if pyStartsWith db_code "TL" then
    (if strLen db_code == 4 then "ITL2" else "ITL3")
  else "LAD"

/-- Level-to-table dictionary `tables` of the route (lines 158–163). -/
def tableFor (lvl : String) : String :=
  if lvl == "ITL1" then "itl1_latest_all"
  else if lvl == "ITL2" then "itl2_latest_all"
  else if lvl == "ITL3" then "itl3_latest_all"
  else "lad_latest_all"

/-- Grouping of the requested region codes by inferred level
(observations.py lines 179–183), in the fixed dictionary iteration order
ITL1, ITL2, ITL3, LAD; order within a level is request order. -/
def byLevel (region_codes : List String) : List (String × List String) :=
  ["ITL1", "ITL2", "ITL3", "LAD"].map fun lvl =>
    (lvl, (region_codes.map to_db_code).filter fun db => inferLevel db == lvl)

/-- Helper for `chunksOf`, structurally recursive on a fuel that starts at
the list length (enough for any chunk size ≥ 1). -/
def chunksOfAux (n : Nat) : Nat → List α → List (List α)
  | 0, _ => []
  | _, [] => []
  | fuel + 1, l => l.take n :: chunksOfAux n fuel (l.drop n)

/-- Python slicing `l[i : i + n]` for `i in range(0, len(l), n)` — the
region/metric chunking of lines 199–200. -/
def chunksOf (n : Nat) (l : List α) : List (List α) :=
  chunksOfAux n l.length l

/-- Observation record as assembled by the route (`app/models.py`,
`ObservationRecord`; the two breakdown fields are never set and omitted). -/
structure ObservationRecord where
  metric_id : String
  region_code : String
  geo_schema : String
  level : String
  time_period : Int
  scenario : String
  measure : String
  value : Option Rat
  unit : Option String
  data_type : Option String
  data_quality : Option String
  confidence_lower : Option Rat
  confidence_upper : Option Rat
deriving DecidableEq

/-- Record construction of observations.py lines 236–252 for one row and
one scenario. -/
def mkRecord (lvl : String) (explicitM : Option String) (scenario : String) (row : Row) :
    ObservationRecord :=
  let measure := chooseMeasureForScenario scenario explicitM
  { metric_id := row.metric_id
    region_code := (lookupStr E_CODE_TO_UK row.region_code).getD row.region_code
    geo_schema := "UK_ITL_2025"
    level := lvl
    time_period := row.period
    scenario := scenario
    measure := measure
    value := pickValue row measure
    unit := row.unit
    data_type := row.data_type
    data_quality := row.data_quality
    confidence_lower := row.ci_lower
    confidence_upper := row.ci_upper }

/-- Parameters of one page fetch against the remote store: everything the
route puts in the PostgREST query string (lines 208–219). -/
structure FetchParams where
  table : String
  regionChunk : List String
  metricChunk : List String
  yearFrom : Int
  yearTo : Int
  dataTypeSel : Option (List String)
  offset : Int
  limitParam : Int
deriving DecidableEq

/-- The remote tabular store, modelled as an arbitrary response to each
page fetch (`supa.get(table, token, params)`). -/
def Store : Type := FetchParams → List Row

/-- Trace entry recording one store call together with the number of
records accumulated at the moment the call was issued (instrumentation of
the embedding; the store itself never sees `atCount`). -/
structure FetchEvent where
  params : FetchParams
  atCount : Nat
deriving DecidableEq

/-- Request-constant context threaded through the fetch loops. -/
structure LoopCtx where
  store : Store
  maxReturn : Int
  yearFrom : Int
  yearTo : Int
  dataTypeSel : Option (List String)
  scenarioSel : List String
  explicitM : Option String

/-- Scenario expansion loop `for scenario in scenario_sel` of lines
234–254: append one record per scenario, stopping as soon as the global
cap is reached (check happens after the append, as in the source). -/
def appendScenarios (maxReturn : Int) (lvl : String) (explicitM : Option String) (row : Row) :
    List String → List ObservationRecord → List ObservationRecord
  | [], records => records
  | scenario :: rest, records =>
    let records := records ++ [mkRecord lvl explicitM scenario row]
    if maxReturn ≤ (records.length : Int) then records
    else appendScenarios maxReturn lvl explicitM row rest records

/-- Row loop `for row in rows` of lines 233–256 with its cap break. -/
def appendRows (maxReturn : Int) (lvl : String) (explicitM : Option String)
    (scenarioSel : List String) :
    List Row → List ObservationRecord → List ObservationRecord
  | [], records => records
  | row :: rest, records =>
    let records := appendScenarios maxReturn lvl explicitM row scenarioSel records
    if maxReturn ≤ (records.length : Int) then records
    else appendRows maxReturn lvl explicitM scenarioSel rest records

/-- Page loop `while True` of lines 207–262, with explicit fuel: fetch a
page of size `min(10000, MAX_RETURN - len(records))` at the current
offset, stop on an empty page, on reaching the cap, or on a short page;
otherwise advance the offset by the page length.  Every store call is
logged in the trace. -/
def pageLoop (ctx : LoopCtx) (lvl table : String) (rchunk mchunk : List String) :
    Nat → Int → List ObservationRecord × List FetchEvent →
    List ObservationRecord × List FetchEvent
  | 0, _, st => st
  | fuel + 1, offset, (records, trace) =>
    let limit : Int := min 10000 (ctx.maxReturn - (records.length : Int))
    let p : FetchParams :=
      { table := table, regionChunk := rchunk, metricChunk := mchunk,
        yearFrom := ctx.yearFrom, yearTo := ctx.yearTo,
        dataTypeSel := ctx.dataTypeSel, offset := offset, limitParam := limit }
    let rows := ctx.store p
    let trace := trace ++ [⟨p, records.length⟩]
    if rows.isEmpty then (records, trace)
    else
      let records := appendRows ctx.maxReturn lvl ctx.explicitM ctx.scenarioSel rows records
      if ctx.maxReturn ≤ (records.length : Int) then (records, trace)
      else if rows.length < 10000 then (records, trace)
      else pageLoop ctx lvl table rchunk mchunk fuel (offset + rows.length) (records, trace)

/-- Metric-chunk loop `for mchunk in metric_chunks` of lines 204–264; the
page offset restarts at the caller cursor for every chunk (line 206). -/
def mchunkLoop (ctx : LoopCtx) (lvl table : String) (rchunk : List String)
    (cursor0 : Int) (fuel : Nat) :
    List (List String) → List ObservationRecord × List FetchEvent →
    List ObservationRecord × List FetchEvent
  | [], st => st
  | mchunk :: rest, st =>
    let st := pageLoop ctx lvl table rchunk mchunk fuel cursor0 st
    if ctx.maxReturn ≤ (st.1.length : Int) then st
    else mchunkLoop ctx lvl table rchunk cursor0 fuel rest st

/-- Region-chunk loop `for rchunk in region_chunks` of lines 202–266. -/
def rchunkLoop (ctx : LoopCtx) (lvl table : String) (metricChunks : List (List String))
    (cursor0 : Int) (fuel : Nat) :
    List (List String) → List ObservationRecord × List FetchEvent →
    List ObservationRecord × List FetchEvent
  | [], st => st
  | rchunk :: rest, st =>
    let st := mchunkLoop ctx lvl table rchunk cursor0 fuel metricChunks st
    if ctx.maxReturn ≤ (st.1.length : Int) then st
    else rchunkLoop ctx lvl table metricChunks cursor0 fuel rest st

/-- Level loop `for lvl, codes in by_level.items()` of lines 193–266.
Note: faithfully to the source, there is no cap check between levels —
after the region-chunk loop breaks the next level group is still entered
(and issues a fetch) whenever it has codes. -/
def levelLoop (ctx : LoopCtx) (metric_ids : List String) (cursor0 : Int) (fuel : Nat) :
    List (String × List String) → List ObservationRecord × List FetchEvent →
    List ObservationRecord × List FetchEvent
  | [], st => st
  | (lvl, codes) :: rest, st =>
    let st :=
      if codes.isEmpty then st
      else
        rchunkLoop ctx lvl (tableFor lvl) (chunksOf 50 metric_ids) cursor0 fuel
          (chunksOf 100 codes) st
    levelLoop ctx metric_ids cursor0 fuel rest st

/-- Python truthiness default `_extract_values(...) or ["baseline"]`
(line 126): `None` and the empty list both fall back to the default. -/
def pyOrList (o : Option (List String)) (dflt : List String) : List String :=
  match o with
  | none => dflt
  | some [] => dflt
  | some l => l

/-- Line 128: `measure_sel[0] if (measure_sel and len(measure_sel) > 0)
else None`. -/
def headMeasure (o : Option (List String)) : Option String :=
  match o with
  | some (m :: _) => some m
  | _ => none

/-- Lines 218–219: the `data_type` filter is attached only when the
extraction is a nonempty list. -/
def dataTypeFilter (o : Option (List String)) : Option (List String) :=
  match o with
  | some (x :: xs) => some (x :: xs)
  | _ => none

/-- Year window of lines 139–144: default `[1991, 2050]`, overridden
exactly when the extraction is a (nonempty) two-element list whose
entries are both all-digit strings. -/
def periodWindow (year_sel : Option (List String)) : Int × Int :=
  match year_sel with
  | some [a, b] =>
    if pyIsDigit a && pyIsDigit b then ((pyInt a : Int), (pyInt b : Int))
    else (1991, 2050)
  | _ => (1991, 2050)

/-- Domain errors of the route that depend on the request alone (auth and
store-configuration errors are outside the modelled core). -/
inductive ApiError where
  | queryTooLarge (estimated maxRecords : Nat)
  | unboundedQuery
deriving DecidableEq

deriving instance DecidableEq for Except

/-- Response metadata fields computed by the route (lines 272–284);
provenance/timestamp/citation fields carry no request-dependent logic and
are omitted. -/
structure ResponseMeta where
  estimated_records : Nat
  returned_records : Nat
  truncated : Bool
  next_cursor : Option Int
deriving DecidableEq

/-- Result of a completed query: metadata, data, and the trace of store
calls the request issued (instrumentation). -/
structure QueryResult where
  meta : ResponseMeta
  data : List ObservationRecord
  trace : List FetchEvent
deriving DecidableEq

/-- Body of the route for a request that passed both gates (observations.py
lines 139–290): year window, fetch-loop context, level-grouped chunked
pagination, and response assembly. -/
def runQuery (store : Store) (fuel : Nat) (req : QueryRequest)
    (metric_ids region_codes : List String) : QueryResult :=
  let year_sel := extractValues req "time_period"
  let scenario_sel := pyOrList (extractValues req "scenario") ["baseline"]
  let explicit_measure := headMeasure (extractValues req "measure")
  let data_type_sel := dataTypeFilter (extractValues req "data_type")
  let yw := periodWindow year_sel
  let cursor0 : Int := req.cursor.getD 0
  let maxReturn : Int := min 250000 (max 1 req.limit)
  let ctx : LoopCtx :=
    { store := store, maxReturn := maxReturn, yearFrom := yw.1, yearTo := yw.2,
      dataTypeSel := data_type_sel, scenarioSel := scenario_sel,
      explicitM := explicit_measure }
  let st := levelLoop ctx metric_ids cursor0 fuel (byLevel region_codes) ([], [])
  let records := st.1
  { meta := {
      estimated_records := estimateCost req
      returned_records := records.length
      truncated := decide (maxReturn ≤ (records.length : Int))
      next_cursor :=
        if maxReturn ≤ (records.length : Int) then some (cursor0 + (records.length : Int))
        else none }
    data := records
    trace := st.2 }

/-- The observations query route `observations_query` (lines 111–290):
cost gate first, unbounded-dimension gate second, then the fetch body. -/
def observationsQuery (store : Store) (fuel : Nat) (req : QueryRequest) :
    Except ApiError QueryResult :=
  let estimated := estimateCost req
  if estimated > MAX_COST then
    .error (.queryTooLarge estimated MAX_COST)
  else
    match extractValues req "metric", extractValues req "region" with
    | some metric_ids, some region_codes =>
      .ok (runQuery store fuel req metric_ids region_codes)
    | _, _ => .error .unboundedQuery

/-- Values a selection contributes to `_extract_values` when its entry is
the first match: `some values` / `none` / `some [from, to]`. -/
def selValues : Selection → Option (List String)
  | .item vs => some vs
  | .all => none
  | .range a b => some [a, b]

/-- Replace the selection of every query entry carrying the given
dimension code (used to state how the engine responds to a change of one
dimension's selection). -/
def replaceList (l : List QueryDim) (code : String) (sel : Selection) : List QueryDim :=
  l.map fun d => if d.code == code then { d with selection := sel } else d

/-- Request with one dimension's selection replaced. -/
def replaceDim (req : QueryRequest) (code : String) (sel : Selection) : QueryRequest :=
  { req with query := replaceList req.query code sel }

/-- Compositional cardinality of one non-year dimension as the estimator
computes it: a fixed substitute for an `all` selection, `max 1 length` of
the extracted list otherwise. -/
def dimCount (o : Option (List String)) (unbounded : Nat) : Nat :=
  match o with
  | none => unbounded
  | some l => max 1 l.length

/-- Decides whether an extraction is exactly two all-digit strings — the
shape the estimator and the year-window logic treat as an integer range. -/
def twoDigitPair : List String → Bool
  | [a, b] => pyIsDigit a && pyIsDigit b
  | _ => false

/-- Compositional year cardinality as the estimator computes it. -/
def yearCount (o : Option (List String)) : Nat :=
  match o with
  | none => 200
  | some [a, b] =>
    if pyIsDigit a && pyIsDigit b then
      max 1 (((pyInt b : Int) - (pyInt a : Int)).natAbs + 1)
    else max 1 2
  | some l => max 1 l.length

/-- Store responses honour the requested page size: at most `limit` rows
come back, and none when the requested page size is not positive.  This is
how PostgREST's `limit` parameter behaves. -/
def honestStore (store : Store) : Prop :=
  ∀ p : FetchParams, (((store p).length : Int)) ≤ max 0 p.limitParam

/-- Cost formula exactly as claim C5 words it, for comparison with the
code's estimator: every explicit item list contributes `max 1 length`
(also on `time_period`), the fixed substitutes apply to unbounded — `all`
or absent — dimensions, and only a range selection on `time_period` with
two integer endpoints contributes `|to - from| + 1` (else the literal
endpoint count 2). -/
def claimedEstimateC5 (req : QueryRequest) : Nat :=
  let cnt := fun (code : String) (unbounded : Nat) =>
    match firstSel req code with
    | none => unbounded
    | some .all => unbounded
    | some (.item vs) => max 1 vs.length
    | some (.range _ _) => max 1 2
  let yearCnt :=
    match firstSel req "time_period" with
    | none => 200
    | some .all => 200
    | some (.item vs) => max 1 vs.length
    | some (.range a b) =>
      if pyIsDigit a && pyIsDigit b then ((pyInt b : Int) - (pyInt a : Int)).natAbs + 1
      else 2
  cnt "metric" 5000 * cnt "region" 50000 * yearCnt * cnt "scenario" 1 * cnt "measure" 1

/-- Store that answers every page fetch with nothing. -/
def emptyStore : Store := fun _ => []

/-- Store that replays a fixed backing list of rows, honouring offset and
page size the way PostgREST serves a stable ordered table. -/
def listStore (rows : List Row) : Store := fun p =>
  (rows.drop p.offset.toNat).take p.limitParam.toNat

/-- Store that answers every page fetch with one fixed row, ignoring the
requested page size (used to exercise the engine against a store response
that does not honour its `limit` parameter). -/
def constRowStore (row : Row) : Store := fun _ => [row]

/-- Sample store row (a forecast row with no confidence interval). -/
def sampleRow : Row :=
  { metric_id := "m", region_code := "E12000001", period := 2000, value := some 1,
    ci_lower := none, ci_upper := none, unit := none, data_type := none, data_quality := none }

/-- Historical store row whose measure columns disagree with its base
value (to exercise the historical override of `_pick_value`). -/
def histRow : Row :=
  { metric_id := "m", region_code := "E12000001", period := 1999, value := some 5,
    ci_lower := some 3, ci_upper := some 9, unit := none,
    data_type := some "historical", data_quality := none }

/-- Forecast store row with a populated upper confidence column. -/
def forecastRow : Row :=
  { metric_id := "m", region_code := "E12000001", period := 2030, value := some 5,
    ci_lower := some 3, ci_upper := some 9, unit := none,
    data_type := some "forecast", data_quality := none }

/-- C1 counterexample request: `metric=all` with an explicit region and a
wide year range, so the cost estimate (5000 × 1 × 201) exceeds the
ceiling. -/
def c1req : QueryRequest :=
  { query := [⟨"metric", .all⟩, ⟨"region", .item ["E12000001"]⟩,
              ⟨"time_period", .range "1900" "2100"⟩] }

/-- C1 witness request: `metric=all` with an explicit region and a
one-year range, so the estimate (5000) passes the cost gate. -/
def w1req : QueryRequest :=
  { query := [⟨"metric", .all⟩, ⟨"region", .item ["E12000001"]⟩,
              ⟨"time_period", .range "2020" "2020"⟩] }

/-- C2 counterexample request: cap `min(250000, max(1, 1)) = 1` with a
single metric and region. -/
def c2req : QueryRequest :=
  { query := [⟨"metric", .item ["m"]⟩, ⟨"region", .item ["E12000001"]⟩], limit := 1 }

/-- Resubmission of `c2req` with the returned cursor. -/
def c2reqNext : QueryRequest :=
  { query := [⟨"metric", .item ["m"]⟩, ⟨"region", .item ["E12000001"]⟩],
    limit := 1, cursor := some 1 }

/-- C4/C5 counterexample request: `time_period` is an item list of two
all-digit years, which the estimator interprets as an inclusive range. -/
def c4req : QueryRequest :=
  { query := [⟨"metric", .item ["m"]⟩, ⟨"region", .item ["r"]⟩,
              ⟨"time_period", .item ["2000", "2010"]⟩] }

/-- The same request after one more year value is added to the
`time_period` item list. -/
def c4reqGrown : QueryRequest :=
  { query := [⟨"metric", .item ["m"]⟩, ⟨"region", .item ["r"]⟩,
              ⟨"time_period", .item ["2000", "2010", "2005"]⟩] }

/-- C5 second counterexample input: the metric dimension is absent (not
`all`), which the claim treats as unbounded (substitute 5000) but the
code counts as `max 1 0 = 1`; likewise the absent year dimension. -/
def c5reqAbsent : QueryRequest :=
  { query := [⟨"region", .item ["r"]⟩] }

/-- C6 counterexample request: `limit = 1` and two regions on different
hierarchy levels, so a second level group is entered after the cap. -/
def c6req : QueryRequest :=
  { query := [⟨"metric", .item ["m"]⟩, ⟨"region", .item ["E12000001", "X"]⟩], limit := 1 }

/-- Simple witness request: one metric, one region, defaults elsewhere. -/
def wreq : QueryRequest :=
  { query := [⟨"metric", .item ["m"]⟩, ⟨"region", .item ["E12000001"]⟩] }

/-- Result of `wreq` against the empty store: no records, one logged
page fetch against the ITL1 table. -/
def wres : QueryResult :=
  { meta := { estimated_records := 1, returned_records := 0,
              truncated := false, next_cursor := none }
    data := []
    trace := [⟨{ table := "itl1_latest_all", regionChunk := ["E12000001"],
                 metricChunk := ["m"], yearFrom := 1991, yearTo := 2050,
                 dataTypeSel := none, offset := 0, limitParam := 10000 }, 0⟩] }

/-- C9 witness request: a two-element measure item list. -/
def w9req : QueryRequest :=
  { query := [⟨"metric", .item ["m"]⟩, ⟨"region", .item ["E12000001"]⟩,
              ⟨"measure", .item ["value", "ci_upper"]⟩] }

/-- C10 witness request: a `time_period` range selection. -/
def w10a : QueryRequest :=
  { query := [⟨"metric", .item ["m"]⟩, ⟨"region", .item ["E12000001"]⟩,
              ⟨"time_period", .range "1995" "1998"⟩] }

/-- C10 witness request: a three-element `time_period` item list, which
the window logic silently ignores. -/
def w10b : QueryRequest :=
  { query := [⟨"metric", .item ["m"]⟩, ⟨"region", .item ["E12000001"]⟩,
              ⟨"time_period", .item ["1995", "1998", "2001"]⟩] }

/-! ### Extraction lemmas -/

theorem extractFrom_cons_pos (d : QueryDim) (rest : List QueryDim) (code : String)
    (h : (d.code == code) = true) :
    extractFrom (d :: rest) code = selValues d.selection := by
  cases hs : d.selection <;> simp [extractFrom, h, selValues, hs]

theorem extractFrom_cons_neg (d : QueryDim) (rest : List QueryDim) (code : String)
    (h : (d.code == code) = false) :
    extractFrom (d :: rest) code = extractFrom rest code := by
  simp [extractFrom, h]

theorem extractFrom_replaceList_ne (l : List QueryDim) (code c : String) (sel : Selection)
    (h : c ≠ code) : extractFrom (replaceList l code sel) c = extractFrom l c := by
  induction l with
  | nil => rfl
  | cons d rest ih =>
    simp only [replaceList, List.map_cons]
    by_cases hd : (d.code == code) = true
    · have hdc : (d.code == c) = false := by
        have : d.code = code := by simpa using hd
        simp [this]
        exact fun e => h e.symm
      rw [if_pos hd]
      rw [extractFrom_cons_neg _ _ _ (by simpa using hdc), extractFrom_cons_neg _ _ _ hdc]
      exact ih
    · rw [if_neg (by simpa using hd)]
      by_cases hdc : (d.code == c) = true
      · rw [extractFrom_cons_pos _ _ _ hdc, extractFrom_cons_pos _ _ _ hdc]
      · rw [extractFrom_cons_neg _ _ _ (by simpa using hdc),
          extractFrom_cons_neg _ _ _ (by simpa using hdc)]
        exact ih

theorem extractFrom_replaceList_eq (l : List QueryDim) (code : String) (sel : Selection)
    (h : (l.any fun d => d.code == code) = true) :
    extractFrom (replaceList l code sel) code = selValues sel := by
  induction l with
  | nil => simp at h
  | cons d rest ih =>
    simp only [replaceList, List.map_cons]
    by_cases hd : (d.code == code) = true
    · rw [if_pos hd]
      have : (({ d with selection := sel } : QueryDim).code == code) = true := by simpa using hd
      rw [extractFrom_cons_pos _ _ _ this]
    · rw [if_neg (by simpa using hd)]
      rw [extractFrom_cons_neg _ _ _ (by simpa using hd)]
      have hrest : (rest.any fun d => d.code == code) = true := by
        simpa [List.any_cons, hd] using h
      exact ih hrest

theorem any_of_extractFrom_cons (l : List QueryDim) (code : String) (x : String)
    (xs : List String) (h : extractFrom l code = some (x :: xs)) :
    (l.any fun d => d.code == code) = true := by
  induction l with
  | nil => simp [extractFrom] at h
  | cons d rest ih =>
    by_cases hd : (d.code == code) = true
    · simp [List.any_cons, hd]
    · rw [extractFrom_cons_neg _ _ _ (by simpa using hd)] at h
      have hrest := ih h
      simp only [List.any_cons, hd, Bool.false_or]
      exact hrest

theorem extractFrom_of_firstSel (l : List QueryDim) (code : String) (s : Selection)
    (h : ((l.find? fun d => d.code == code).map (·.selection)) = some s) :
    extractFrom l code = selValues s := by
  induction l with
  | nil => simp [List.find?] at h
  | cons d rest ih =>
    by_cases hd : (d.code == code) = true
    · simp only [List.find?_cons, hd, Option.map_some'] at h
      rw [extractFrom_cons_pos _ _ _ hd, Option.some.inj h]
    · simp only [List.find?_cons, hd] at h
      rw [extractFrom_cons_neg _ _ _ (by simpa using hd)]
      exact ih h

theorem extractValues_of_firstSel (req : QueryRequest) (code : String) (s : Selection)
    (h : firstSel req code = some s) : extractValues req code = selValues s :=
  extractFrom_of_firstSel req.query code s (by simpa [firstSel] using h)

/-! ### Estimator lemmas -/

theorem dimCount_pos (o : Option (List String)) (u : Nat) (hu : 1 ≤ u) :
    1 ≤ dimCount o u := by
  cases o <;> simp [dimCount] <;> omega

theorem yearCount_pos (o : Option (List String)) : 1 ≤ yearCount o := by
  rcases o with _ | ⟨_ | ⟨a, _ | ⟨b, _ | ⟨c, t⟩⟩⟩⟩ <;> simp [yearCount] <;>
    first
    | omega
    | (split <;> omega)

set_option maxHeartbeats 2000000 in
theorem estimateCost_factored (req : QueryRequest) :
    estimateCost req =
      dimCount (extractValues req "metric") 5000 *
        dimCount (extractValues req "region") 50000 *
        yearCount (extractValues req "time_period") *
        dimCount (extractValues req "scenario") 1 *
        dimCount (extractValues req "measure") 1 := by
  simp only [estimateCost]
  generalize extractValues req "metric" = om
  generalize extractValues req "region" = oreg
  generalize extractValues req "scenario" = os
  generalize extractValues req "measure" = ome
  generalize extractValues req "time_period" = oy
  rcases om with _ | lm <;>
  rcases oreg with _ | lr <;>
  rcases os with _ | ls <;>
  rcases ome with _ | lme <;>
  rcases oy with _ | ⟨_ | ⟨a, _ | ⟨b, _ | ⟨c, t⟩⟩⟩⟩ <;>
  simp [dimCount, yearCount] <;>
  first
  | rfl
  | omega
  | (refine Nat.one_le_iff_ne_zero.mpr ?_
     repeat' first
       | apply Nat.mul_ne_zero
       | split
     all_goals omega)

theorem dimCount_append_le (vs : List String) (v : String) (u : Nat) :
    dimCount (some vs) u ≤ dimCount (some (vs ++ [v])) u := by
  simp only [dimCount, List.length_append, List.length_cons, List.length_nil]
  omega

theorem yearCount_append_le (vs : List String) (v : String)
    (h : twoDigitPair vs = false) :
    yearCount (some vs) ≤ yearCount (some (vs ++ [v])) := by
  rcases vs with _ | ⟨a, _ | ⟨b, _ | ⟨c, t⟩⟩⟩
  · simp only [List.nil_append, yearCount, List.length_nil, List.length_cons]
    omega
  · simp only [List.cons_append, List.nil_append, yearCount, List.length_cons, List.length_nil]
    split <;> omega
  · have hab : (pyIsDigit a && pyIsDigit b) = false := by simpa [twoDigitPair] using h
    simp only [List.cons_append, List.nil_append, yearCount, hab, Bool.false_eq_true,
      if_false, List.length_cons, List.length_nil]
    omega
  · simp only [List.cons_append, yearCount, List.length_cons, List.length_append,
      List.length_nil]
    omega

/-! ### Claims C3, C4, C5, C7, C8, C10 -/

/-- C3 counterexample: the derived ITL1 code `TLC` (prefix `TL`, length 3,
not length 5) is classified `ITL3` by `infer_level`, not `LAD` as the
claim's catch-all requires. -/
theorem c3_counterexample :
    pyStartsWith "TLC" "TL" = true ∧ strLen "TLC" = 3 ∧
    inferLevel "TLC" = "ITL3" ∧ inferLevel "TLC" ≠ "LAD" := by decide

/-- C3 (amended): `infer_level` is total and classifies disjointly:
`ITL1` exactly on the four statistical prefixes; for the remaining codes
`ITL2` exactly on prefix `TL` with length 4, `ITL3` exactly on prefix `TL`
with any other length (not only length 5), and `LAD` exactly on the codes
with no `TL` prefix. -/
theorem c3_inferLevel_partition (s : String) :
    (inferLevel s = "ITL1" ↔
      (pyStartsWith s "E120" || pyStartsWith s "S920" || pyStartsWith s "W920"
        || pyStartsWith s "N920") = true) ∧
    (inferLevel s = "ITL2" ↔
      ((pyStartsWith s "E120" || pyStartsWith s "S920" || pyStartsWith s "W920"
        || pyStartsWith s "N920") = false ∧ pyStartsWith s "TL" = true ∧ strLen s = 4)) ∧
    (inferLevel s = "ITL3" ↔
      ((pyStartsWith s "E120" || pyStartsWith s "S920" || pyStartsWith s "W920"
        || pyStartsWith s "N920") = false ∧ pyStartsWith s "TL" = true ∧ strLen s ≠ 4)) ∧
    (inferLevel s = "LAD" ↔
      ((pyStartsWith s "E120" || pyStartsWith s "S920" || pyStartsWith s "W920"
        || pyStartsWith s "N920") = false ∧ pyStartsWith s "TL" = false)) := by
  unfold inferLevel
  by_cases h1 : (pyStartsWith s "E120" || pyStartsWith s "S920" || pyStartsWith s "W920"
      || pyStartsWith s "N920") = true
  · simp [h1]
  · have h1f : (pyStartsWith s "E120" || pyStartsWith s "S920" || pyStartsWith s "W920"
        || pyStartsWith s "N920") = false := by simpa using h1
    by_cases h2 : pyStartsWith s "TL" = true
    · by_cases h3 : strLen s = 4
      · simp [h1f, h2, h3]
      · have h3l : ¬s.length = 4 := by simpa [strLen] using h3
        simp [h1f, h2, strLen, h3l]
    · have h2f : pyStartsWith s "TL" = false := by simpa using h2
      simp [h1f, h2f]

/-- C4 counterexample: growing the `time_period` item selection from the
two all-digit values `["2000", "2010"]` (estimated as an 11-year range)
to three values strictly decreases the cost estimate (11 to 3). -/
theorem c4_counterexample :
    c4reqGrown = replaceDim c4req "time_period" (.item (["2000", "2010"] ++ ["2005"])) ∧
    estimateCost c4req = 11 ∧ estimateCost c4reqGrown = 3 ∧
    estimateCost c4reqGrown < estimateCost c4req := by decide

/-- C4 (amended): the cost estimate is monotonically non-decreasing when
one more value is added to any dimension's explicit selection, except for
a `time_period` selection that currently extracts to exactly two all-digit
strings (which the estimator reads as an inclusive year range). -/
theorem c4_estimate_monotone (req : QueryRequest) (d : String) (vs : List String) (v : String)
    (hmem : (req.query.any fun dim => dim.code == d) = true)
    (hex : extractValues req d = some vs)
    (hy : d = "time_period" → twoDigitPair vs = false) :
    estimateCost req ≤ estimateCost (replaceDim req d (.item (vs ++ [v]))) := by
  have hrepl : extractValues (replaceDim req d (.item (vs ++ [v]))) d = some (vs ++ [v]) := by
    simpa [extractValues, replaceDim, selValues] using
      extractFrom_replaceList_eq req.query d (.item (vs ++ [v])) hmem
  have hne : ∀ c : String, ¬(c = d) →
      extractValues (replaceDim req d (.item (vs ++ [v]))) c = extractValues req c := by
    intro c hc
    simpa [extractValues, replaceDim] using
      extractFrom_replaceList_ne req.query d c (.item (vs ++ [v])) hc
  rw [estimateCost_factored req, estimateCost_factored (replaceDim req d (.item (vs ++ [v])))]
  have key : ∀ (c : String) (u : Nat), dimCount (extractValues req c) u ≤
      dimCount (extractValues (replaceDim req d (.item (vs ++ [v]))) c) u := by
    intro c u
    by_cases hc : c = d
    · subst hc
      rw [hex, hrepl]
      exact dimCount_append_le vs v u
    · rw [hne c hc]
  have keyY : yearCount (extractValues req "time_period") ≤
      yearCount (extractValues (replaceDim req d (.item (vs ++ [v]))) "time_period") := by
    by_cases hc : "time_period" = d
    · subst hc
      rw [hex, hrepl]
      exact yearCount_append_le vs v (hy rfl)
    · rw [hne "time_period" hc]
  exact Nat.mul_le_mul
    (Nat.mul_le_mul
      (Nat.mul_le_mul (Nat.mul_le_mul (key "metric" 5000) (key "region" 50000)) keyY)
      (key "scenario" 1))
    (key "measure" 1)

/-- C4 witness: the monotonicity theorem applied to the metric dimension
of a concrete request. -/
theorem c4_witness :
    estimateCost c4req ≤ estimateCost (replaceDim c4req "metric" (.item (["m"] ++ ["m2"]))) :=
  c4_estimate_monotone c4req "metric" ["m"] "m2" (by decide) (by decide) (by decide)

/-- C5 counterexample: the claim's formula disagrees with the code on a
two-element all-digit `time_period` item list (code: 11, claim: 2) and on
an absent metric/time dimension (code: 1, claim: 5000 × 200). -/
theorem c5_counterexample :
    estimateCost c4req = 11 ∧ claimedEstimateC5 c4req = 2 ∧
    estimateCost c5reqAbsent = 1 ∧ claimedEstimateC5 c5reqAbsent = 1000000 := by decide

/-- C5 (amended): the cost estimate equals the product of per-dimension
cardinalities over the extracted selections, where the fixed substitutes
(metric 5000, region 50000, scenario 1, measure 1, year 200) apply only to
explicit `all` selections (absent dimensions extract to `[]` and contribute
`max 1 0 = 1`), and any `time_period` extraction of exactly two all-digit
strings — item list or range alike — contributes `|to - from| + 1`; every
other extracted list contributes `max 1 length`. -/
theorem c5_estimate_formula (req : QueryRequest) :
    estimateCost req =
      dimCount (extractValues req "metric") 5000 *
        dimCount (extractValues req "region") 50000 *
        yearCount (extractValues req "time_period") *
        dimCount (extractValues req "scenario") 1 *
        dimCount (extractValues req "measure") 1 :=
  estimateCost_factored req

/-- C7: the scenario/measure resolver returns an explicit measure
unconditionally when it is one of the three known names, and otherwise
maps `upside` to `ci_upper`, `downside` to `ci_lower`, and anything else
(including `baseline`) to `value`. -/
theorem c7_resolver (scenario : String) (em : Option String) :
    ((em = some "value" ∨ em = some "ci_lower" ∨ em = some "ci_upper") →
      chooseMeasureForScenario scenario em = em.getD "value") ∧
    ((em ≠ some "value" ∧ em ≠ some "ci_lower" ∧ em ≠ some "ci_upper") →
      chooseMeasureForScenario scenario em =
        (if scenario = "upside" then "ci_upper"
         else if scenario = "downside" then "ci_lower" else "value")) := by
  constructor
  · rintro (rfl | rfl | rfl) <;> simp [chooseMeasureForScenario]
  · rintro ⟨h1, h2, h3⟩
    have hc : (em == some "value" || em == some "ci_lower" || em == some "ci_upper") = false := by
      simp [h1, h2, h3]
    simp only [chooseMeasureForScenario, hc, Bool.false_eq_true, if_false]
    by_cases hu : scenario = "upside"
    · simp [hu]
    · by_cases hdn : scenario = "downside" <;> simp [hu, hdn]

/-- C7 witness: the resolver evaluated at the four spec examples,
including the explicit override winning over the scenario. -/
theorem c7_witness :
    chooseMeasureForScenario "upside" (some "value") = "value" ∧
    chooseMeasureForScenario "upside" none = "ci_upper" ∧
    chooseMeasureForScenario "downside" none = "ci_lower" ∧
    chooseMeasureForScenario "baseline" none = "value" :=
  ⟨by simpa using (c7_resolver "upside" (some "value")).1 (Or.inl rfl),
   by simpa using (c7_resolver "upside" none).2 (by decide),
   by simpa using (c7_resolver "downside" none).2 (by decide),
   by simpa using (c7_resolver "baseline" none).2 (by decide)⟩

/-- C8: value extraction — a `historical` row always yields its base
`value` field regardless of the resolved measure; any other row yields the
column named by the measure, falling back to `value` when that column is
absent or null. -/
theorem c8_pick_value (row : Row) (m : String) :
    (row.data_type = some "historical" → pickValue row m = row.value) ∧
    (row.data_type ≠ some "historical" →
      pickValue row m = (if rowGet row m = none then row.value else rowGet row m)) := by
  constructor
  · intro h
    simp [pickValue, h]
  · intro h
    have hb : (row.data_type == some "historical") = false := by simpa using h
    simp only [pickValue, hb, Bool.false_eq_true, if_false]
    cases hg : rowGet row m <;> simp [hg]

/-- C8 witness: the historical row yields its base value even under the
`ci_upper` measure; the forecast row yields the `ci_upper` column. -/
theorem c8_witness :
    pickValue histRow "ci_upper" = some 5 ∧ pickValue forecastRow "ci_upper" = some 9 :=
  ⟨by simpa using (c8_pick_value histRow "ci_upper").1 (by decide),
   by simpa using (c8_pick_value forecastRow "ci_upper").2 (by decide)⟩

/-- C10: the fetched period window is narrowed exactly when the
`time_period` extraction is two all-digit strings — which a range
selection and a two-element item selection both produce — and keeps the
default `[1991, 2050]` for every other explicit selection (one- or
three-element item lists included). -/
theorem c10_period_window (req : QueryRequest) :
    (∀ a b, extractValues req "time_period" = some [a, b] → pyIsDigit a = true →
        pyIsDigit b = true →
        periodWindow (extractValues req "time_period") = ((pyInt a : Int), (pyInt b : Int))) ∧
    (∀ l, extractValues req "time_period" = some l → twoDigitPair l = false →
        periodWindow (extractValues req "time_period") = (1991, 2050)) ∧
    (extractValues req "time_period" = none →
        periodWindow (extractValues req "time_period") = (1991, 2050)) ∧
    (∀ a b, firstSel req "time_period" = some (.range a b) →
        extractValues req "time_period" = some [a, b]) ∧
    (∀ vs, firstSel req "time_period" = some (.item vs) →
        extractValues req "time_period" = some vs) := by
  refine ⟨?_, ?_, ?_, ?_, ?_⟩
  · intro a b h ha hb
    rw [h]
    simp [periodWindow, ha, hb]
  · intro l h htw
    rw [h]
    rcases l with _ | ⟨a, _ | ⟨b, _ | ⟨c, t⟩⟩⟩
    · rfl
    · rfl
    · have hab : (pyIsDigit a && pyIsDigit b) = false := by simpa [twoDigitPair] using htw
      simp [periodWindow, hab]
    · rfl
  · intro h
    rw [h]
    rfl
  · intro a b h
    simpa [selValues] using extractValues_of_firstSel req "time_period" _ h
  · intro vs h
    simpa [selValues] using extractValues_of_firstSel req "time_period" _ h

/-- C10 witness: a range selection `2020–2022` narrows the window; a
three-element item list keeps the default. -/
theorem c10_witness :
    periodWindow (extractValues w10a "time_period") = (1995, 1998) ∧
    periodWindow (extractValues w10b "time_period") = (1991, 2050) :=
  ⟨(c10_period_window w10a).1 "1995" "1998" (by decide) (by decide) (by decide),
   (c10_period_window w10b).2.1 ["1995", "1998", "2001"] (by decide) (by decide)⟩

/-! ### Cap and trace invariants of the fetch loops -/

theorem appendScenarios_le (maxR : Int) (lvl : String) (em : Option String) (row : Row)
    (scs : List String) (records : List ObservationRecord)
    (h : (records.length : Int) < maxR) :
    ((appendScenarios maxR lvl em row scs records).length : Int) ≤ maxR := by
  induction scs generalizing records with
  | nil =>
    simpa [appendScenarios] using le_of_lt h
  | cons s rest ih =>
    simp only [appendScenarios]
    split
    · simp only [List.length_append, List.length_cons, List.length_nil]
      omega
    · next hn =>
      apply ih
      simp only [List.length_append, List.length_cons, List.length_nil] at hn ⊢
      omega

theorem appendRows_le (maxR : Int) (lvl : String) (em : Option String)
    (scenarioSel : List String) (rows : List Row) (records : List ObservationRecord)
    (h : (records.length : Int) < maxR) :
    ((appendRows maxR lvl em scenarioSel rows records).length : Int) ≤ maxR := by
  induction rows generalizing records with
  | nil =>
    simpa [appendRows] using le_of_lt h
  | cons row rest ih =>
    simp only [appendRows]
    split
    · exact appendScenarios_le maxR lvl em row scenarioSel records h
    · next hn =>
      apply ih
      have := appendScenarios_le maxR lvl em row scenarioSel records h
      omega

theorem pageLoop_inv (ctx : LoopCtx) (lvl table : String) (rchunk mchunk : List String)
    (hstore : honestStore ctx.store) :
    ∀ (fuel : Nat) (offset : Int) (st : List ObservationRecord × List FetchEvent),
    (st.1.length : Int) ≤ ctx.maxReturn →
    (∀ e ∈ st.2, (e.atCount : Int) < ctx.maxReturn ∨ e.params.limitParam ≤ 0) →
    ((pageLoop ctx lvl table rchunk mchunk fuel offset st).1.length : Int) ≤ ctx.maxReturn ∧
    (∀ e ∈ (pageLoop ctx lvl table rchunk mchunk fuel offset st).2,
      (e.atCount : Int) < ctx.maxReturn ∨ e.params.limitParam ≤ 0) := by
  intro fuel
  induction fuel with
  | zero =>
    intro offset st h1 h2
    exact ⟨h1, h2⟩
  | succ fuel ih =>
    rintro offset ⟨records, trace⟩ h1 h2
    simp only [pageLoop]
    set p : FetchParams :=
      { table := table, regionChunk := rchunk, metricChunk := mchunk,
        yearFrom := ctx.yearFrom, yearTo := ctx.yearTo,
        dataTypeSel := ctx.dataTypeSel, offset := offset,
        limitParam := min 10000 (ctx.maxReturn - (records.length : Int)) } with hp
    have hev : ∀ e ∈ trace ++ [(⟨p, records.length⟩ : FetchEvent)],
        (e.atCount : Int) < ctx.maxReturn ∨ e.params.limitParam ≤ 0 := by
      intro e he
      rcases List.mem_append.mp he with he | he
      · exact h2 e he
      · simp only [List.mem_singleton] at he
        subst he
        by_cases hcap : (records.length : Int) < ctx.maxReturn
        · exact Or.inl hcap
        · refine Or.inr ?_
          show min 10000 (ctx.maxReturn - (records.length : Int)) ≤ 0
          omega
    split
    · exact ⟨h1, hev⟩
    · next hne =>
      have hrows1 : 1 ≤ (ctx.store p).length := by
        have : ctx.store p ≠ [] := by simpa [List.isEmpty_iff] using hne
        exact List.length_pos.mpr this
      have hs : ((ctx.store p).length : Int) ≤
          max 0 (min 10000 (ctx.maxReturn - (records.length : Int))) := hstore p
      have hlt : (records.length : Int) < ctx.maxReturn := by omega
      have happ := appendRows_le ctx.maxReturn lvl ctx.explicitM ctx.scenarioSel
        (ctx.store p) records hlt
      split
      · exact ⟨happ, hev⟩
      · split
        · exact ⟨happ, hev⟩
        · exact ih (offset + ((ctx.store p).length : Int)) (_, _) happ hev

theorem mchunkLoop_inv (ctx : LoopCtx) (lvl table : String) (rchunk : List String)
    (cursor0 : Int) (fuel : Nat) (hstore : honestStore ctx.store) :
    ∀ (chunks : List (List String)) (st : List ObservationRecord × List FetchEvent),
    (st.1.length : Int) ≤ ctx.maxReturn →
    (∀ e ∈ st.2, (e.atCount : Int) < ctx.maxReturn ∨ e.params.limitParam ≤ 0) →
    ((mchunkLoop ctx lvl table rchunk cursor0 fuel chunks st).1.length : Int) ≤ ctx.maxReturn ∧
    (∀ e ∈ (mchunkLoop ctx lvl table rchunk cursor0 fuel chunks st).2,
      (e.atCount : Int) < ctx.maxReturn ∨ e.params.limitParam ≤ 0) := by
  intro chunks
  induction chunks with
  | nil =>
    intro st h1 h2
    exact ⟨h1, h2⟩
  | cons mchunk rest ih =>
    intro st h1 h2
    simp only [mchunkLoop]
    have hpage := pageLoop_inv ctx lvl table rchunk mchunk hstore fuel cursor0 st h1 h2
    split
    · exact hpage
    · exact ih _ hpage.1 hpage.2

theorem rchunkLoop_inv (ctx : LoopCtx) (lvl table : String)
    (metricChunks : List (List String)) (cursor0 : Int) (fuel : Nat)
    (hstore : honestStore ctx.store) :
    ∀ (chunks : List (List String)) (st : List ObservationRecord × List FetchEvent),
    (st.1.length : Int) ≤ ctx.maxReturn →
    (∀ e ∈ st.2, (e.atCount : Int) < ctx.maxReturn ∨ e.params.limitParam ≤ 0) →
    ((rchunkLoop ctx lvl table metricChunks cursor0 fuel chunks st).1.length : Int) ≤
      ctx.maxReturn ∧
    (∀ e ∈ (rchunkLoop ctx lvl table metricChunks cursor0 fuel chunks st).2,
      (e.atCount : Int) < ctx.maxReturn ∨ e.params.limitParam ≤ 0) := by
  intro chunks
  induction chunks with
  | nil =>
    intro st h1 h2
    exact ⟨h1, h2⟩
  | cons rchunk rest ih =>
    intro st h1 h2
    simp only [rchunkLoop]
    have hm := mchunkLoop_inv ctx lvl table rchunk cursor0 fuel hstore metricChunks st h1 h2
    split
    · exact hm
    · exact ih _ hm.1 hm.2

theorem levelLoop_inv (ctx : LoopCtx) (metric_ids : List String) (cursor0 : Int)
    (fuel : Nat) (hstore : honestStore ctx.store) :
    ∀ (groups : List (String × List String)) (st : List ObservationRecord × List FetchEvent),
    (st.1.length : Int) ≤ ctx.maxReturn →
    (∀ e ∈ st.2, (e.atCount : Int) < ctx.maxReturn ∨ e.params.limitParam ≤ 0) →
    ((levelLoop ctx metric_ids cursor0 fuel groups st).1.length : Int) ≤ ctx.maxReturn ∧
    (∀ e ∈ (levelLoop ctx metric_ids cursor0 fuel groups st).2,
      (e.atCount : Int) < ctx.maxReturn ∨ e.params.limitParam ≤ 0) := by
  intro groups
  induction groups with
  | nil =>
    intro st h1 h2
    exact ⟨h1, h2⟩
  | cons g rest ih =>
    intro st h1 h2
    obtain ⟨lvl, codes⟩ := g
    simp only [levelLoop]
    split
    · exact ih st h1 h2
    · have hr := rchunkLoop_inv ctx lvl (tableFor lvl) (chunksOf 50 metric_ids) cursor0 fuel
        hstore (chunksOf 100 codes) st h1 h2
      exact ih _ hr.1 hr.2

theorem runQuery_cap (store : Store) (fuel : Nat) (req : QueryRequest)
    (metric_ids region_codes : List String) (hstore : honestStore store) :
    ((runQuery store fuel req metric_ids region_codes).data.length : Int) ≤
      min 250000 (max 1 req.limit) ∧
    (∀ e ∈ (runQuery store fuel req metric_ids region_codes).trace,
      (e.atCount : Int) < min 250000 (max 1 req.limit) ∨ e.params.limitParam ≤ 0) := by
  simp only [runQuery]
  exact levelLoop_inv _ metric_ids (req.cursor.getD 0) fuel hstore (byLevel region_codes)
    ([], []) (by simp) (by simp)

theorem runQuery_meta (store : Store) (fuel : Nat) (req : QueryRequest)
    (metric_ids region_codes : List String) :
    (runQuery store fuel req metric_ids region_codes).meta.returned_records =
      (runQuery store fuel req metric_ids region_codes).data.length ∧
    (runQuery store fuel req metric_ids region_codes).meta.truncated =
      decide (min 250000 (max 1 req.limit) ≤
        ((runQuery store fuel req metric_ids region_codes).data.length : Int)) ∧
    (runQuery store fuel req metric_ids region_codes).meta.next_cursor =
      (if min 250000 (max 1 req.limit) ≤
          ((runQuery store fuel req metric_ids region_codes).data.length : Int)
       then some (req.cursor.getD 0 +
          ((runQuery store fuel req metric_ids region_codes).data.length : Int))
       else none) :=
  ⟨rfl, rfl, rfl⟩

theorem observationsQuery_ok_inv (store : Store) (fuel : Nat) (req : QueryRequest)
    (res : QueryResult) (h : observationsQuery store fuel req = .ok res) :
    estimateCost req ≤ MAX_COST ∧
    ∃ metric_ids region_codes,
      extractValues req "metric" = some metric_ids ∧
      extractValues req "region" = some region_codes ∧
      res = runQuery store fuel req metric_ids region_codes := by
  simp only [observationsQuery] at h
  by_cases hg : estimateCost req > MAX_COST
  · rw [if_pos hg] at h
    exact absurd h (by simp)
  · rw [if_neg hg] at h
    split at h
    · next mids rcs hm hr =>
      injection h with h
      exact ⟨by omega, mids, rcs, hm, hr, h.symm⟩
    · exact absurd h (by simp)

theorem emptyStore_honest : honestStore emptyStore := by
  intro p
  show ((([] : List Row).length : Int)) ≤ max 0 p.limitParam
  simp only [List.length_nil, Nat.cast_zero]
  omega

/-! ### Claims C1, C2, C6, C9 -/

/-- C6 counterexample: with cap `min(250000, max(1, 1)) = 1`, regions on
two hierarchy levels, and a store that ignores the requested page size,
the engine returns 2 records (exceeding the cap) and issues a second
store call after the cap was already reached (at accumulated count 1,
requesting 0 rows): the level loop never checks the cap between level
groups. -/
theorem c6_counterexample :
    min 250000 (max 1 c6req.limit) = 1 ∧
    (observationsQuery (constRowStore sampleRow) 5 c6req).map
        (fun r => (r.meta.returned_records,
          r.trace.map (fun e => (e.atCount, e.params.limitParam)))) =
      .ok (2, [(0, 1), (1, 0)]) := by decide

/-- C6 (amended): provided every store page response honours the
requested page size (at most `limit` rows, none when `limit ≤ 0`), the
total number of returned records never exceeds
`min(250000, max(1, requested_limit))`, with the single cap bounding the
accumulated total across all level groups, batches, pages and scenario
expansions; and every page fetch is issued either strictly before the cap
is reached or with a requested page size of 0 (the one zero-size call per
remaining nonempty level group after the cap — the code does contact the
store once more per such group, but fetches no rows from it). -/
theorem c6_global_cap (store : Store) (fuel : Nat) (req : QueryRequest) (res : QueryResult)
    (hstore : honestStore store) (h : observationsQuery store fuel req = .ok res) :
    ((res.data.length : Int) ≤ min 250000 (max 1 req.limit)) ∧
    (∀ e ∈ res.trace,
      (e.atCount : Int) < min 250000 (max 1 req.limit) ∨ e.params.limitParam ≤ 0) := by
  obtain ⟨-, m, r, -, -, rfl⟩ := observationsQuery_ok_inv store fuel req res h
  exact runQuery_cap store fuel req m r hstore

/-- C6 witness: the cap theorem applied to the empty store and a simple
one-metric one-region request. -/
theorem c6_witness :
    ((wres.data.length : Int) ≤ min 250000 (max 1 wreq.limit)) ∧
    (∀ e ∈ wres.trace,
      (e.atCount : Int) < min 250000 (max 1 wreq.limit) ∨ e.params.limitParam ≤ 0) :=
  c6_global_cap emptyStore 1 wreq wres emptyStore_honest (by decide)

/-- C2 counterexample: a store holding exactly one matching row, queried
with cap 1: the response returns every matching row (the resubmission at
the returned cursor fetches nothing), yet reports `truncated = true` with
`next_cursor = 1` — the cap was reached exactly at exhaustion, not
strictly before it, so the claimed "iff" fails. -/
theorem c2_counterexample :
    (observationsQuery (listStore [sampleRow]) 5 c2req).map
        (fun r => (r.meta.returned_records, r.meta.truncated, r.meta.next_cursor)) =
      .ok (1, true, some 1) ∧
    (observationsQuery (listStore [sampleRow]) 5 c2reqNext).map
        (fun r => (r.meta.returned_records, r.meta.truncated, r.meta.next_cursor)) =
      .ok (0, false, none) := by decide

/-- C2 (amended): for every completed response against a store that
honours page sizes, `truncated` is true iff the number of returned
records equals the cap `min(250000, max(1, requested_limit))` — i.e. the
cap was reached, whether or not further matching rows remained;
`next_cursor` is present iff `truncated`, and then equals the
caller-supplied cursor (or 0) plus the number of records returned. -/
theorem c2_truncation (store : Store) (fuel : Nat) (req : QueryRequest) (res : QueryResult)
    (hstore : honestStore store) (h : observationsQuery store fuel req = .ok res) :
    (res.meta.truncated = true ↔
      (res.meta.returned_records : Int) = min 250000 (max 1 req.limit)) ∧
    (res.meta.next_cursor.isSome = res.meta.truncated) ∧
    (res.meta.truncated = true →
      res.meta.next_cursor =
        some (req.cursor.getD 0 + (res.meta.returned_records : Int))) := by
  obtain ⟨-, m, r, -, -, rfl⟩ := observationsQuery_ok_inv store fuel req res h
  have hcap := (runQuery_cap store fuel req m r hstore).1
  obtain ⟨h1, h2, h3⟩ := runQuery_meta store fuel req m r
  refine ⟨?_, ?_, ?_⟩
  · rw [h2, h1]
    constructor
    · intro ht
      have := of_decide_eq_true ht
      omega
    · intro he
      exact decide_eq_true (by omega)
  · rw [h3, h2]
    by_cases hle : min 250000 (max 1 req.limit) ≤
        ((runQuery store fuel req m r).data.length : Int)
    · simp [hle]
    · simp [hle]
  · intro ht
    rw [h2] at ht
    have := of_decide_eq_true ht
    rw [h3, if_pos this, h1]

/-- C2 witness: the truncation theorem applied to the empty store and a
simple request (0 records returned, not truncated, no cursor). -/
theorem c2_witness :
    (wres.meta.truncated = true ↔
      (wres.meta.returned_records : Int) = min 250000 (max 1 wreq.limit)) ∧
    (wres.meta.next_cursor.isSome = wres.meta.truncated) :=
  ⟨(c2_truncation emptyStore 1 wreq wres emptyStore_honest (by decide)).1,
   (c2_truncation emptyStore 1 wreq wres emptyStore_honest (by decide)).2.1⟩

/-- C1 counterexample: `metric=all` with an explicit single region and a
201-year range is rejected — but with `QUERY_TOO_LARGE` (the cost gate
runs first and the unbounded metric is costed at 5000), not
`UNBOUNDED_QUERY` as the claim requires for every such query. -/
theorem c1_counterexample :
    extractValues c1req "metric" = none ∧
    observationsQuery emptyStore 1 c1req = .error (.queryTooLarge 1005000 250000) ∧
    observationsQuery emptyStore 1 c1req ≠ .error .unboundedQuery := by decide

/-- C1 (amended): a query whose metric or region selection is the `all`
filter never completes; it is rejected with `UNBOUNDED_QUERY` whenever its
cost estimate passes the cost gate (estimate ≤ 250000), and with
`QUERY_TOO_LARGE` otherwise — the cost gate fires before the unbounded
check. -/
theorem c1_unbounded_gate (store : Store) (fuel : Nat) (req : QueryRequest)
    (h : extractValues req "metric" = none ∨ extractValues req "region" = none) :
    (∀ res : QueryResult, observationsQuery store fuel req ≠ .ok res) ∧
    (estimateCost req ≤ MAX_COST →
      observationsQuery store fuel req = .error .unboundedQuery) := by
  have hmain : estimateCost req ≤ MAX_COST →
      observationsQuery store fuel req = .error .unboundedQuery := by
    intro hle
    simp only [observationsQuery]
    rw [if_neg (by omega)]
    rcases h with h | h
    · rw [h]
    · rcases hm : extractValues req "metric" with _ | a
      · rfl
      · rw [h]
  refine ⟨?_, hmain⟩
  intro res
  by_cases hg : estimateCost req > MAX_COST
  · simp only [observationsQuery]
    rw [if_pos hg]
    simp
  · rw [hmain (by omega)]
    simp

/-- C1 witness: `metric=all` with one region and a one-year range passes
the cost gate (estimate 5000) and is rejected with `UNBOUNDED_QUERY`. -/
theorem c1_witness :
    estimateCost w1req ≤ MAX_COST ∧
    observationsQuery emptyStore 1 w1req = .error .unboundedQuery :=
  ⟨by decide, (c1_unbounded_gate emptyStore 1 w1req (Or.inl (by decide))).2 (by decide)⟩

theorem runQuery_congr (store : Store) (fuel : Nat) (req req' : QueryRequest)
    (m r : List String)
    (hyw : extractValues req "time_period" = extractValues req' "time_period")
    (hsc : extractValues req "scenario" = extractValues req' "scenario")
    (hdt : extractValues req "data_type" = extractValues req' "data_type")
    (hme : headMeasure (extractValues req "measure") =
      headMeasure (extractValues req' "measure"))
    (hlim : req.limit = req'.limit) (hcur : req.cursor = req'.cursor) :
    (runQuery store fuel req m r).data = (runQuery store fuel req' m r).data ∧
    (runQuery store fuel req m r).meta.returned_records =
      (runQuery store fuel req' m r).meta.returned_records ∧
    (runQuery store fuel req m r).meta.truncated =
      (runQuery store fuel req' m r).meta.truncated ∧
    (runQuery store fuel req m r).meta.next_cursor =
      (runQuery store fuel req' m r).meta.next_cursor := by
  simp only [runQuery]
  rw [hyw, hsc, hdt, hme, hlim, hcur]
  exact ⟨rfl, rfl, rfl, rfl⟩

/-- C9: when the measure dimension carries an explicit item list, only its
first value acts as the explicit measure: for every store and fuel, a
request whose measure extraction is `m :: rest` produces exactly the same
records, returned count, truncation flag and cursor as the same request
with measure selection `[m]` — the tail has no effect on the response
(though it still multiplies the cost estimate, claim C5). -/
theorem c9_first_measure_only (store : Store) (fuel : Nat) (req : QueryRequest)
    (m : String) (rest : List String)
    (hms : extractValues req "measure" = some (m :: rest))
    (hcost : estimateCost req ≤ MAX_COST) :
    (observationsQuery store fuel req).map
        (fun r => (r.data, r.meta.returned_records, r.meta.truncated, r.meta.next_cursor)) =
      (observationsQuery store fuel (replaceDim req "measure" (.item [m]))).map
        (fun r => (r.data, r.meta.returned_records, r.meta.truncated, r.meta.next_cursor)) := by
  have hmem : (req.query.any fun dim => dim.code == "measure") = true :=
    any_of_extractFrom_cons req.query "measure" m rest hms
  have hms2 : extractValues (replaceDim req "measure" (.item [m])) "measure" = some [m] := by
    simpa [extractValues, replaceDim, selValues] using
      extractFrom_replaceList_eq req.query "measure" (.item [m]) hmem
  have hne : ∀ c : String, ¬(c = "measure") →
      extractValues (replaceDim req "measure" (.item [m])) c = extractValues req c := by
    intro c hc
    simpa [extractValues, replaceDim] using
      extractFrom_replaceList_ne req.query "measure" c (.item [m]) hc
  have hcost2 : estimateCost (replaceDim req "measure" (.item [m])) ≤ MAX_COST := by
    have hle : estimateCost (replaceDim req "measure" (.item [m])) ≤ estimateCost req := by
      rw [estimateCost_factored req, estimateCost_factored (replaceDim req "measure" (.item [m])),
        hne "metric" (by decide), hne "region" (by decide), hne "time_period" (by decide),
        hne "scenario" (by decide), hms, hms2]
      refine Nat.mul_le_mul le_rfl ?_
      simp [dimCount]
    omega
  simp only [observationsQuery]
  rw [if_neg (show ¬(estimateCost req > MAX_COST) by omega),
    if_neg (show ¬(estimateCost (replaceDim req "measure" (.item [m])) > MAX_COST) by omega),
    hne "metric" (by decide), hne "region" (by decide)]
  rcases hm : extractValues req "metric" with _ | mids
  · rfl
  · rcases hr : extractValues req "region" with _ | rcs
    · rfl
    · simp only [Except.map]
      obtain ⟨h1, h2, h3, h4⟩ := runQuery_congr store fuel req
        (replaceDim req "measure" (.item [m])) mids rcs
        (hne "time_period" (by decide)).symm (hne "scenario" (by decide)).symm
        (hne "data_type" (by decide)).symm
        (by rw [hms, hms2]; rfl) rfl rfl
      rw [h1, h2, h3, h4]

/-- C9 witness: a request with measure item list `["value", "ci_upper"]`
yields the same response components as with `["value"]` alone. -/
theorem c9_witness :
    (observationsQuery emptyStore 1 w9req).map
        (fun r => (r.data, r.meta.returned_records, r.meta.truncated, r.meta.next_cursor)) =
      (observationsQuery emptyStore 1 (replaceDim w9req "measure" (.item ["value"]))).map
        (fun r => (r.data, r.meta.returned_records, r.meta.truncated, r.meta.next_cursor)) :=
  c9_first_measure_only emptyStore 1 w9req "value" ["ci_upper"] (by decide) (by decide)

end RegionIQ
